import Mathlib

/-!
Verification of the progressive-overload suggestion engine from
`src/ABetterTerp/src/pages/Workouts.tsx` (`getSuggestion` and its helpers
`isCardio` / `isBodyweightStrength`).

JavaScript numbers are modelled as rationals (`ℚ`); optional numeric fields
of a `WorkoutSet` are `Option ℚ`, with `?? 0` rendered as `Option.getD _ 0`.
String-valued tags (`muscle`, `equipment`) stay strings, as in the source.
-/

namespace Workouts

/-- Embeds `type ExerciseCategory = 'Strength' | 'Cardio'`. -/
inductive ExerciseCategory where
  | Strength
  | Cardio
  deriving DecidableEq, Repr

/-- The `Exercise` record of Workouts.tsx. -/
structure Exercise where
  id : String
  name : String
  muscle : String
  equipment : String
  compound : Bool
  category : ExerciseCategory
  createdByUser : Option Bool := none
  deriving DecidableEq, Repr

/-- The `WorkoutSet` record of Workouts.tsx. Optional numeric fields are
`Option ℚ` (absent = `none`). -/
structure WorkoutSet where
  id : String
  weight : Option ℚ := none
  reps : Option ℚ := none
  isWarmup : Bool
  durationMin : Option ℚ := none
  distanceMi : Option ℚ := none
  calories : Option ℚ := none
  rpe : Option ℚ := none
  deriving DecidableEq, Repr

/-- Embeds `function isCardio(ex) { return ex.category === 'Cardio' }`. -/
def isCardio (ex : Exercise) : Bool :=
  ex.category == ExerciseCategory.Cardio

/-- Embeds `function isBodyweightStrength(ex) { return ex.category === 'Strength' && ex.equipment === 'Bodyweight' }`. -/
def isBodyweightStrength (ex : Exercise) : Bool :=
  ex.category == ExerciseCategory.Strength && ex.equipment == "Bodyweight"

/-- The filter callback inside `getSuggestion`:
`s => { if (s.isWarmup) return false; const reps = s.reps ?? 0; const weight = s.weight ?? 0;
 if (bodyweight) return reps > 0; return weight > 0 && reps > 0 }` -/
def isWorkSet (bodyweight : Bool) (s : WorkoutSet) : Bool :=
  if s.isWarmup then false
  else
    let reps := s.reps.getD 0
    let weight := s.weight.getD 0
    if bodyweight then decide (0 < reps)
    else decide (0 < weight) && decide (0 < reps)

/-- Embeds `function getSuggestion(exercise, historySets)` of Workouts.tsx.
`work[work.length - 1]` on the non-empty filtered list is rendered as
`List.getLast?` (the `none` case is exactly the `work.length === 0` early
return). -/
def getSuggestion (exercise : Exercise) (historySets : List WorkoutSet) : String :=
  if isCardio exercise then
    if historySets.isEmpty then "No history yet — start easy and build consistency."
    else "Next time: +2–5 minutes or a slight pace/incline increase."
  else
    let bodyweight := isBodyweightStrength exercise
    let work := historySets.filter (isWorkSet bodyweight)
    match work.getLast? with
    | none => "No history yet — start comfortable and focus on clean form."
    | some last =>
      let reps := last.reps.getD 0
      let load := last.weight.getD 0
      if bodyweight then
        if 0 < load then
          if 8 ≤ reps ∧ reps ≤ 12 then "Nice weighted set — consider +2.5–5 lbs next time."
          else if 12 < reps then "You may be ready to add a bit more weight."
          else if 5 ≤ reps then "Try adding 1–2 reps before increasing weight again."
          else "Hold this load and tighten technique."
        else if load < 0 then
          if 8 ≤ reps ∧ reps ≤ 12 then "Good assisted range — try reducing assistance by 5–10 lbs next time."
          else if 12 < reps then "You can likely reduce assistance a bit."
          else if 5 ≤ reps then "Stay here and aim for cleaner reps before reducing assistance."
          else "Keep assistance for now and focus on controlled tempo."
        else
          if 12 ≤ reps then "Great control — consider a harder variation or add light weight if available."
          else if 8 ≤ reps then "Try adding 1–2 reps next time if form stays clean."
          else if 5 ≤ reps then "Stick here and aim for smoother reps and full range of motion."
          else "Repeat this and focus on strict form and controlled tempo."
      else
        let isUpper := exercise.muscle ∈ ["Chest", "Shoulders", "Arms"]
        let inc : ℚ := if exercise.equipment = "Dumbbell" then 5/2 else if isUpper then 5 else 10
        if inc = 5 ∧ 8 ≤ reps ∧ reps ≤ 12 then "Try +5 lbs next time if form was solid."
        else if 8 ≤ reps ∧ reps ≤ 12 then "Solid range — consider a small increase next time if form was clean."
        else if 12 < reps then "You may be ready for a small weight increase next time."
        else if 5 ≤ reps then "Try adding 1 rep per set before increasing weight."
        else "Repeat this weight and aim for tighter technique."

/-- The string literals appearing in the body of `getSuggestion`, in source
order. -/
def suggestionMessages : List String :=
  [ "No history yet — start easy and build consistency."
  , "Next time: +2–5 minutes or a slight pace/incline increase."
  , "No history yet — start comfortable and focus on clean form."
  , "Nice weighted set — consider +2.5–5 lbs next time."
  , "You may be ready to add a bit more weight."
  , "Try adding 1–2 reps before increasing weight again."
  , "Hold this load and tighten technique."
  , "Good assisted range — try reducing assistance by 5–10 lbs next time."
  , "You can likely reduce assistance a bit."
  , "Stay here and aim for cleaner reps before reducing assistance."
  , "Keep assistance for now and focus on controlled tempo."
  , "Great control — consider a harder variation or add light weight if available."
  , "Try adding 1–2 reps next time if form stays clean."
  , "Stick here and aim for smoother reps and full range of motion."
  , "Repeat this and focus on strict form and controlled tempo."
  , "Try +5 lbs next time if form was solid."
  , "Solid range — consider a small increase next time if form was clean."
  , "You may be ready for a small weight increase next time."
  , "Try adding 1 rep per set before increasing weight."
  , "Repeat this weight and aim for tighter technique."
  ]

/-! Sample values drawn from `DEFAULT_STRENGTH` / `DEFAULT_CARDIO` in the
source, used to instantiate witnesses. -/

/-- Embeds `{ id: 'bench', name: 'Barbell Bench Press', muscle: 'Chest', equipment: 'Barbell', compound: true, category: 'Strength' }` -/
def bench : Exercise :=
  { id := "bench", name := "Barbell Bench Press", muscle := "Chest", equipment := "Barbell",
    compound := true, category := .Strength }

/-- Embeds `{ id: 'curl', name: 'Dumbbell Curl', muscle: 'Arms', equipment: 'Dumbbell', compound: false, category: 'Strength' }` -/
def curl : Exercise :=
  { id := "curl", name := "Dumbbell Curl", muscle := "Arms", equipment := "Dumbbell",
    compound := false, category := .Strength }

/-- Embeds `{ id: 'pullup', name: 'Pull-Ups', muscle: 'Back', equipment: 'Bodyweight', compound: true, category: 'Strength' }` -/
def pullup : Exercise :=
  { id := "pullup", name := "Pull-Ups", muscle := "Back", equipment := "Bodyweight",
    compound := true, category := .Strength }

/-- Embeds `{ id: 'tread', name: 'Treadmill Run', muscle: 'Cardio', equipment: 'Treadmill', compound: false, category: 'Cardio' }` -/
def tread : Exercise :=
  { id := "tread", name := "Treadmill Run", muscle := "Cardio", equipment := "Treadmill",
    compound := false, category := .Cardio }

/-- A working set `{ isWarmup: false, weight: 135, reps: 10 }`. -/
def set135x10 : WorkoutSet := { id := "a", weight := some 135, reps := some 10, isWarmup := false }

/-- A working set `{ isWarmup: false, weight: 25, reps: 15 }`. -/
def set25x15 : WorkoutSet := { id := "b", weight := some 25, reps := some 15, isWarmup := false }

/-- An assisted bodyweight set `{ isWarmup: false, weight: -20, reps: 9 }`. -/
def setAssisted20x9 : WorkoutSet :=
  { id := "c", weight := some (-20), reps := some 9, isWarmup := false }

/-- A warm-up set. -/
def warmupSet : WorkoutSet := { id := "d", weight := some 135, reps := some 10, isWarmup := true }

/-- An unweighted bodyweight set with 12 reps. -/
def bwSet12 : WorkoutSet := { id := "e", weight := some 0, reps := some 12, isWarmup := false }

/-- An unweighted bodyweight set with 11 reps. -/
def bwSet11 : WorkoutSet := { id := "f", weight := some 0, reps := some 11, isWarmup := false }

/-! Helper lemmas shared by the claim theorems. -/

theorem isCardio_eq_false {ex : Exercise} (h : ex.category = ExerciseCategory.Strength) :
    isCardio ex = false := by
  simp [isCardio, h]

theorem category_of_bodyweight {ex : Exercise} (h : isBodyweightStrength ex = true) :
    ex.category = ExerciseCategory.Strength := by
  simp only [isBodyweightStrength, Bool.and_eq_true, beq_iff_eq] at h
  exact h.1

theorem getSuggestion_of_no_work (ex : Exercise) (hs : List WorkoutSet)
    (hcat : ex.category = ExerciseCategory.Strength)
    (hno : ∀ s ∈ hs, isWorkSet (isBodyweightStrength ex) s = false) :
    getSuggestion ex hs = "No history yet — start comfortable and focus on clean form." := by
  have hc : isCardio ex = false := isCardio_eq_false hcat
  have hfil : hs.filter (isWorkSet (isBodyweightStrength ex)) = [] := by
    rw [List.filter_eq_nil_iff]
    intro a ha
    simp [hno a ha]
  simp [getSuggestion, hc, hfil]

theorem getSuggestion_mem (ex : Exercise) (hs : List WorkoutSet) :
    getSuggestion ex hs ∈ suggestionMessages := by
  simp only [getSuggestion]
  split
  · split <;> simp [suggestionMessages]
  · split
    · simp [suggestionMessages]
    · split_ifs <;> simp [suggestionMessages]

/-- Claim C1: for every `Exercise` and every list of `WorkoutSet` values (absent
weight/reps coerced to 0 via `Option.getD`, any warm-up flags), `getSuggestion`
is a total function and returns a non-empty string. -/
theorem getSuggestion_total_nonempty (ex : Exercise) (hs : List WorkoutSet) :
    getSuggestion ex hs ≠ "" := by
  have hmem := getSuggestion_mem ex hs
  have hne : ∀ m ∈ suggestionMessages, m ≠ "" := by decide
  exact hne _ hmem

/-- Claim C2: for every Cardio exercise, `getSuggestion` on the empty history
returns the fixed cardio no-history message, and on any non-empty history
(regardless of the sets' contents) returns the fixed progression message. -/
theorem getSuggestion_cardio (ex : Exercise)
    (hcat : ex.category = ExerciseCategory.Cardio) :
    getSuggestion ex [] = "No history yet — start easy and build consistency." ∧
    ∀ hs : List WorkoutSet, hs ≠ [] →
      getSuggestion ex hs = "Next time: +2–5 minutes or a slight pace/incline increase." := by
  have hc : isCardio ex = true := by simp [isCardio, hcat]
  refine ⟨by simp [getSuggestion, hc], fun hs hne => ?_⟩
  simp [getSuggestion, hc, hne]

/-- Witness for C2 at the treadmill exercise with an arbitrary logged set. -/
theorem getSuggestion_cardio_witness :
    getSuggestion tread [] = "No history yet — start easy and build consistency." ∧
    getSuggestion tread [warmupSet] = "Next time: +2–5 minutes or a slight pace/incline increase." :=
  ⟨(getSuggestion_cardio tread rfl).1,
   (getSuggestion_cardio tread rfl).2 [warmupSet] (by decide)⟩

/-- Claim C10 (amended): every output of `getSuggestion` is one of the 20 distinct
literal advisory messages appearing in its body; no input produces any other
string. -/
theorem getSuggestion_range (ex : Exercise) (hs : List WorkoutSet) :
    getSuggestion ex hs ∈ suggestionMessages ∧
    suggestionMessages.length = 20 ∧ suggestionMessages.Nodup :=
  ⟨getSuggestion_mem ex hs, by decide, by decide⟩

/-- Claim C10 counterexample: the body of `getSuggestion` contains 20 distinct
literal advisory messages, not 21 as the claim states. -/
theorem suggestionMessages_count_ne_21 :
    suggestionMessages.Nodup ∧ suggestionMessages.length = 20 ∧
    suggestionMessages.length ≠ 21 := by
  refine ⟨by decide, by decide, by decide⟩

/-- Claim C3: for every Strength exercise and every history in which no set passes
the working-set filter (non-warm-up with reps > 0 for bodyweight, non-warm-up
with weight > 0 and reps > 0 otherwise, absent fields coerced to 0),
`getSuggestion` returns the fixed no-history message. -/
theorem getSuggestion_no_working_sets (ex : Exercise) (hs : List WorkoutSet)
    (hcat : ex.category = ExerciseCategory.Strength)
    (hno : ∀ s ∈ hs, isWorkSet (isBodyweightStrength ex) s = false) :
    getSuggestion ex hs = "No history yet — start comfortable and focus on clean form." :=
  getSuggestion_of_no_work ex hs hcat hno

/-- Witness for C3: a barbell bench press whose only history is a warm-up set
and a set with zero reps. -/
theorem getSuggestion_no_working_sets_witness :
    getSuggestion bench [warmupSet, { id := "z", weight := some 100, reps := some 0, isWarmup := false }]
      = "No history yet — start comfortable and focus on clean form." :=
  getSuggestion_no_working_sets bench
    [warmupSet, { id := "z", weight := some 100, reps := some 0, isWarmup := false }]
    rfl (by decide)

/-- Claim C4 counterexample: for a Cardio exercise, a history consisting of a single
warm-up set is NOT treated like the empty history — it triggers the fixed
progression message instead of the cardio no-history message. -/
theorem warmup_only_cardio_counterexample :
    (∀ s ∈ [warmupSet], s.isWarmup = true) ∧
    getSuggestion tread [warmupSet] ≠ getSuggestion tread [] := by
  refine ⟨by decide, by decide⟩

/-- Claim C4 (amended): for every Strength exercise, a history all of whose sets are
warm-ups produces the same suggestion as the empty history. (For Cardio
exercises the emptiness test precedes the warm-up filter, so the equivalence
fails there.) -/
theorem getSuggestion_warmup_only_eq_empty (ex : Exercise) (hs : List WorkoutSet)
    (hcat : ex.category = ExerciseCategory.Strength)
    (hw : ∀ s ∈ hs, s.isWarmup = true) :
    getSuggestion ex hs = getSuggestion ex [] := by
  have hno : ∀ s ∈ hs, isWorkSet (isBodyweightStrength ex) s = false := by
    intro s hsmem
    simp [isWorkSet, hw s hsmem]
  rw [getSuggestion_of_no_work ex hs hcat hno,
    getSuggestion_of_no_work ex [] hcat (by simp)]

/-- Witness for C4 (amended): pull-ups with a single warm-up set. -/
theorem getSuggestion_warmup_only_eq_empty_witness :
    getSuggestion pullup [warmupSet] = getSuggestion pullup [] :=
  getSuggestion_warmup_only_eq_empty pullup [warmupSet] rfl (by decide)

/-- Claim C5: on the loaded (non-bodyweight) Strength branch, with `reps` taken from
the last working set and the increment 2.5 for Dumbbell, else 5 for
Chest/Shoulders/Arms, else 10: increment 5 with reps in [8,12] gives the
explicit +5 lbs message; reps in [8,12] otherwise the generic small-increase
message; reps > 12 the ready-for-small-increase message; reps in [5,7] the
add-1-rep message; reps < 5 the repeat-weight message. -/
theorem getSuggestion_loaded_branch (ex : Exercise) (hs : List WorkoutSet)
    (last : WorkoutSet) (reps inc : ℚ)
    (hcat : ex.category = ExerciseCategory.Strength)
    (heqp : ex.equipment ≠ "Bodyweight")
    (hl : (hs.filter (isWorkSet (isBodyweightStrength ex))).getLast? = some last)
    (hreps : reps = last.reps.getD 0)
    (hinc : inc = if ex.equipment = "Dumbbell" then (5/2 : ℚ)
      else if ex.muscle ∈ ["Chest", "Shoulders", "Arms"] then 5 else 10) :
    (inc = 5 → 8 ≤ reps → reps ≤ 12 →
      getSuggestion ex hs = "Try +5 lbs next time if form was solid.") ∧
    (inc ≠ 5 → 8 ≤ reps → reps ≤ 12 →
      getSuggestion ex hs = "Solid range — consider a small increase next time if form was clean.") ∧
    (12 < reps → getSuggestion ex hs = "You may be ready for a small weight increase next time.") ∧
    (5 ≤ reps → reps ≤ 7 → getSuggestion ex hs = "Try adding 1 rep per set before increasing weight.") ∧
    (reps < 5 → getSuggestion ex hs = "Repeat this weight and aim for tighter technique.") := by
  have hc : isCardio ex = false := isCardio_eq_false hcat
  have hbw : isBodyweightStrength ex = false := by
    simp [isBodyweightStrength, heqp]
  rw [hbw] at hl
  subst hreps hinc
  simp only [getSuggestion, hc, hbw, hl, Bool.false_eq_true, if_false]
  refine ⟨fun h1 h2 h3 => ?_, fun h1 h2 h3 => ?_, fun h1 => ?_, fun h1 h2 => ?_, fun h1 => ?_⟩
  · rw [if_pos ⟨h1, h2, h3⟩]
  · rw [if_neg fun hcon => h1 hcon.1, if_pos ⟨h2, h3⟩]
  · rw [if_neg fun hcon => by linarith [hcon.2.2], if_neg fun hcon => by linarith [hcon.2],
      if_pos h1]
  · have hng : ¬(8 ≤ last.reps.getD 0 ∧ last.reps.getD 0 ≤ 12) := fun hcon => by linarith [hcon.1]
    rw [if_neg fun hcon => hng ⟨hcon.2.1, hcon.2.2⟩, if_neg hng, if_neg (by linarith), if_pos h1]
  · have hng : ¬(8 ≤ last.reps.getD 0 ∧ last.reps.getD 0 ≤ 12) := fun hcon => by linarith [hcon.1]
    rw [if_neg fun hcon => hng ⟨hcon.2.1, hcon.2.2⟩, if_neg hng, if_neg (by linarith),
      if_neg (by linarith)]

/-- Witness for C5: the two spec scenarios — barbell bench (Chest) at
135×10 gives the explicit +5 lbs message, and dumbbell curl (Arms) at 25×15
gives the ready-for-a-small-weight-increase message. -/
theorem getSuggestion_loaded_branch_witness :
    getSuggestion bench [set135x10] = "Try +5 lbs next time if form was solid." ∧
    getSuggestion curl [set25x15] = "You may be ready for a small weight increase next time." := by
  constructor
  · exact (getSuggestion_loaded_branch bench [set135x10] set135x10 10 5 rfl (by decide)
      (by decide) (by norm_num [set135x10]) (by decide)).1 rfl (by norm_num)
      (by norm_num)
  · exact (getSuggestion_loaded_branch curl [set25x15] set25x15 15 (5/2) rfl (by decide)
      (by decide) (by norm_num [set25x15]) (by simp [curl])).2.2.1 (by norm_num)

/-- Claim C6: for a bodyweight Strength exercise whose last working set carries zero
load, 12 reps yields the harder-variation message and 11 reps the add-1–2-reps
message — the reps-12 boundary is inclusive on the harder-variation side. -/
theorem getSuggestion_bodyweight_boundary (ex : Exercise) (hs : List WorkoutSet)
    (last : WorkoutSet)
    (hbw : isBodyweightStrength ex = true)
    (hl : (hs.filter (isWorkSet (isBodyweightStrength ex))).getLast? = some last)
    (hw : last.weight.getD 0 = 0) :
    (last.reps.getD 0 = 12 →
      getSuggestion ex hs = "Great control — consider a harder variation or add light weight if available.") ∧
    (last.reps.getD 0 = 11 →
      getSuggestion ex hs = "Try adding 1–2 reps next time if form stays clean.") := by
  have hc : isCardio ex = false := isCardio_eq_false (category_of_bodyweight hbw)
  rw [hbw] at hl
  constructor <;> intro hr <;>
    norm_num [getSuggestion, hc, hbw, hl, hw, hr]

/-- Witness for C6: pull-ups with a single unweighted working set of 12 reps
(harder variation) and of 11 reps (add 1–2 reps). -/
theorem getSuggestion_bodyweight_boundary_witness :
    getSuggestion pullup [bwSet12] = "Great control — consider a harder variation or add light weight if available." ∧
    getSuggestion pullup [bwSet11] = "Try adding 1–2 reps next time if form stays clean." :=
  ⟨(getSuggestion_bodyweight_boundary pullup [bwSet12] bwSet12 rfl (by decide) (by decide)).1
      (by decide),
   (getSuggestion_bodyweight_boundary pullup [bwSet11] bwSet11 rfl (by decide) (by decide)).2
      (by decide)⟩

/-- Claim C7: for a bodyweight Strength exercise whose last working set carries
negative load (assisted), the weighted branch's reps thresholds apply with the
assistance-flavoured messages; reps in [8,12] in particular yields the
reduce-assistance-by-5–10-lbs message. -/
theorem getSuggestion_bodyweight_assisted (ex : Exercise) (hs : List WorkoutSet)
    (last : WorkoutSet)
    (hbw : isBodyweightStrength ex = true)
    (hl : (hs.filter (isWorkSet (isBodyweightStrength ex))).getLast? = some last)
    (hw : last.weight.getD 0 < 0) :
    (8 ≤ last.reps.getD 0 → last.reps.getD 0 ≤ 12 →
      getSuggestion ex hs = "Good assisted range — try reducing assistance by 5–10 lbs next time.") ∧
    (12 < last.reps.getD 0 →
      getSuggestion ex hs = "You can likely reduce assistance a bit.") ∧
    (5 ≤ last.reps.getD 0 → last.reps.getD 0 ≤ 7 →
      getSuggestion ex hs = "Stay here and aim for cleaner reps before reducing assistance.") ∧
    (last.reps.getD 0 < 5 →
      getSuggestion ex hs = "Keep assistance for now and focus on controlled tempo.") := by
  have hc : isCardio ex = false := isCardio_eq_false (category_of_bodyweight hbw)
  have hnp : ¬(0 < last.weight.getD 0) := by linarith
  rw [hbw] at hl
  simp only [getSuggestion, hc, hbw, hl, Bool.false_eq_true, eq_self_iff_true, if_true, if_false,
    if_neg hnp, if_pos hw]
  refine ⟨fun h1 h2 => ?_, fun h1 => ?_, fun h1 h2 => ?_, fun h1 => ?_⟩
  · rw [if_pos ⟨h1, h2⟩]
  · rw [if_neg fun hcon => by linarith [hcon.2], if_pos h1]
  · rw [if_neg fun hcon => by linarith [hcon.1], if_neg (by linarith), if_pos h1]
  · rw [if_neg fun hcon => by linarith [hcon.1], if_neg (by linarith), if_neg (by linarith)]

/-- Witness for C7: the spec scenario — a Back bodyweight exercise (pull-ups)
with one assisted set at weight −20 and 9 reps. -/
theorem getSuggestion_bodyweight_assisted_witness :
    getSuggestion pullup [setAssisted20x9]
      = "Good assisted range — try reducing assistance by 5–10 lbs next time." :=
  (getSuggestion_bodyweight_assisted pullup [setAssisted20x9] setAssisted20x9 rfl
      (by decide) (by decide)).1 (by decide) (by decide)

/-- Claim C8: `getSuggestion` is deterministic — two calls with identical arguments
return identical strings. In this embedding the function is pure by
construction, mirroring the source, which only reads its arguments (the filter
allocates a fresh array) and never writes to them, so the inputs are unchanged
by a call. -/
theorem getSuggestion_deterministic (ex ex' : Exercise) (hs hs' : List WorkoutSet)
    (hex : ex = ex') (hhs : hs = hs') :
    getSuggestion ex hs = getSuggestion ex' hs' := by
  rw [hex, hhs]

/-- Witness for C8 at the bench-press exercise with one logged set. -/
theorem getSuggestion_deterministic_witness :
    getSuggestion bench [set135x10] = getSuggestion bench [set135x10] :=
  getSuggestion_deterministic bench bench [set135x10] [set135x10] rfl rfl

/-- Claim C9: the suggestion depends only on the exercise's `category`, `equipment`
and `muscle` fields (and on the history): two exercises agreeing on those
three fields get the same suggestion for every history, whatever their `id`,
`name`, `compound` or `createdByUser`. -/
theorem getSuggestion_depends_only_on_fields (ex ex' : Exercise) (hs : List WorkoutSet)
    (hc : ex.category = ex'.category) (he : ex.equipment = ex'.equipment)
    (hm : ex.muscle = ex'.muscle) :
    getSuggestion ex hs = getSuggestion ex' hs := by
  simp only [getSuggestion, isCardio, isBodyweightStrength, hc, he, hm]

/-- Witness for C9: the bench press against a renamed, re-flagged copy. -/
theorem getSuggestion_depends_only_on_fields_witness :
    getSuggestion bench [set135x10] =
      getSuggestion
        { id := "other", name := "Other Press", muscle := "Chest", equipment := "Barbell",
          compound := false, category := .Strength, createdByUser := some true }
        [set135x10] :=
  getSuggestion_depends_only_on_fields bench
    { id := "other", name := "Other Press", muscle := "Chest", equipment := "Barbell",
      compound := false, category := .Strength, createdByUser := some true }
    [set135x10] rfl rfl rfl

end Workouts
